import Mathlib

/-!
Verification of the truth_capsules Witness Execution & Policy Verification
Engine against its specification.

The scripts operate on YAML documents decoded into Python values.  We embed
those values as `JVal` and Python `dict`s as association lists with unique
keys (Python dictionaries cannot hold duplicate keys; lookups are by first
match).  External library primitives that the scripts call — `hashlib.sha256`
(as a hex digest of a UTF-8 string), `json.loads`, and pynacl Ed25519
verification — are modelled as explicit function parameters, since they are
not code of this repository; everything the repository itself computes is
translated directly from the source files.
-/

/-- A YAML/JSON-like value as decoded by `yaml.safe_load` / `json.loads`.
Mappings are association lists with unique keys. -/
inductive JVal where
  | null
  | bool (b : Bool)
  | num (n : Int)
  | str (s : String)
  | arr (xs : List JVal)
  | obj (kvs : List (String × JVal))

/-- A decoded YAML mapping (Python `dict`). -/
abbrev YDict := List (String × JVal)

/-- Python `dict.get(k)`: first-match lookup, `None` when absent. -/
def dget (kvs : YDict) (k : String) : Option JVal :=
  match kvs.find? (fun p => p.1 == k) with
  | some p => some p.2
  | none => none

/-- First-match lookup in a string-valued association list
(Python `dict.get(k)` on a `str`-valued dict such as `LANGUAGE_ENTRYPOINTS`). -/
def dgetS (kvs : List (String × String)) (k : String) : Option String :=
  match kvs.find? (fun p => p.1 == k) with
  | some p => some p.2
  | none => none

/-- Python truthiness of a decoded value (`bool(v)`). -/
def pyTruthy : JVal → Bool
  | .null => false
  | .bool b => b
  | .num n => n != 0
  | .str s => s ≠ ""
  | .arr xs => !xs.isEmpty
  | .obj kvs => !kvs.isEmpty

/-- Hex digit character, lowercase, as produced by Python's `json` escapes. -/
def hexDigitChar (n : Nat) : Char :=
  if n < 10 then Char.ofNat (48 + n) else Char.ofNat (87 + n)

/-- Four-digit lowercase hex rendering used in `\uXXXX` escapes. -/
def hex4 (n : Nat) : String :=
  String.mk [hexDigitChar (n / 4096 % 16), hexDigitChar (n / 256 % 16),
             hexDigitChar (n / 16 % 16), hexDigitChar (n % 16)]

/-- One character of `json.dumps` string output.  With `ensureAscii` set
(the default used for object keys) non-ASCII characters become `\uXXXX`
escapes (surrogate pairs above the BMP); with it unset (the scripts pass
`ensure_ascii=False` for values) they are emitted literally. -/
def jsonEscapeChar (ensureAscii : Bool) (c : Char) : String :=
  let n := c.toNat
  if c = '"' then "\\\""
  else if c = '\\' then "\\\\"
  else if c = '\n' then "\\n"
  else if c = '\t' then "\\t"
  else if c = '\r' then "\\r"
  else if n = 8 then "\\b"
  else if n = 12 then "\\f"
  else if n < 32 then "\\u" ++ hex4 n
  else if ensureAscii && n ≥ 128 then
    if n < 65536 then "\\u" ++ hex4 n
    else
      let m := n - 65536
      "\\u" ++ hex4 (55296 + m / 1024) ++ "\\u" ++ hex4 (56320 + m % 1024)
  else String.singleton c

/-- `json.dumps` of a string value. -/
def jsonQuote (ensureAscii : Bool) (s : String) : String :=
  "\"" ++ String.join (s.data.map (jsonEscapeChar ensureAscii)) ++ "\""

/-- `json.dumps` of a scalar (`None`, `bool`, `int`) with
`separators=(',', ':')`, as used by `canonical_json`'s else-branch. -/
def jsonDumpsScalar (ensureAscii : Bool) : JVal → String
  | .null => "null"
  | .bool b => if b then "true" else "false"
  | .num n => toString n
  | .str s => jsonQuote ensureAscii s
  | .arr _ => ""
  | .obj _ => ""

/-- Stable insertion of a rendered key/value pair into a key-sorted list;
`sortPairs` models Python's `sorted(obj.keys())` walk of an object's
entries (codepoint-lexicographic, stable). -/
def insertPairLe (p : String × String) : List (String × String) → List (String × String)
  | [] => [p]
  | q :: qs => if p.1 ≤ q.1 then p :: q :: qs else q :: insertPairLe p qs

/-- Sort rendered object entries by key, ascending, stable. -/
def sortPairs (l : List (String × String)) : List (String × String) :=
  l.foldr insertPairLe []

/-- Render sorted object entries as `"key":value` fragments
(`json.dumps(k) + ":" + canonical_json(obj[k])` — keys use the
`ensure_ascii` default). -/
def renderPairs (l : List (String × String)) : List String :=
  l.map (fun p => jsonQuote true p.1 ++ ":" ++ p.2)

namespace CapsuleDigest

/-! Translation of `scripts/capsule_digest.py`. -/

mutual

/-- `canonical_json` (capsule_digest.py lines 22-36): arrays keep order,
objects are rendered with keys sorted alphabetically, scalars via
`json.dumps(..., ensure_ascii=False, separators=(',', ':'))`. -/
def canonical_json : JVal → String
  | .arr xs => "[" ++ String.intercalate "," (cjList xs) ++ "]"
  | .obj kvs => "\x7b" ++ String.intercalate "," (renderPairs (sortPairs (cjPairs kvs))) ++ "\x7d"
  | v => jsonDumpsScalar false v

/-- The list comprehension `canonical_json(item) for item in obj`. -/
def cjList : List JVal → List String
  | [] => []
  | x :: xs => canonical_json x :: cjList xs

/-- Canonicalize each object entry's value, keeping its key. -/
def cjPairs : List (String × JVal) → List (String × String)
  | [] => []
  | p :: ps => (p.1, canonical_json p.2) :: cjPairs ps

end

/-- `core_for_digest` (capsule_digest.py lines 39-59): the seven
digest-relevant fields; `assumptions` normalized to a list, `pedagogy`
normalized to a list of `kind`/`text` mappings with non-mapping elements
dropped. -/
def core_for_digest (c : YDict) : YDict :=
  let ped0 : JVal :=
    match dget c "pedagogy" with
    | some v => if pyTruthy v then v else .arr []
    | none => .arr []
  let pedagogy : JVal :=
    match ped0 with
    | .arr xs =>
        .arr (xs.filterMap (fun p =>
          match p with
          | .obj kvs => some (.obj [("kind", (dget kvs "kind").getD .null),
                                    ("text", (dget kvs "text").getD .null)])
          | _ => none))
    | _ => .arr []
  let assumptions : JVal :=
    match dget c "assumptions" with
    | some (.arr xs) => .arr xs
    | _ => .arr []
  [("id", (dget c "id").getD .null),
   ("version", (dget c "version").getD .null),
   ("domain", (dget c "domain").getD .null),
   ("title", (dget c "title").getD .null),
   ("statement", (dget c "statement").getD .null),
   ("assumptions", assumptions),
   ("pedagogy", pedagogy)]

/-- `calculate_digest` (capsule_digest.py lines 62-68).  `sha256hex` stands
for `hashlib.sha256(s.encode('utf-8')).hexdigest()`, an external library
primitive. -/
def calculate_digest (sha256hex : String → String) (c : YDict) : String :=
  sha256hex (canonical_json (.obj (core_for_digest c)))

end CapsuleDigest

namespace PolicyCheck

/-! Translation of `scripts/capsule_policy_check.py`.

The script's own `canonical_json` and core-field extraction are reproduced
here independently of the digest tool's; the refinement claim compares the
two.  Fields the script immediately calls `.get` on (`provenance`,
`signing`, `review`) are assumed to be mappings when present and truthy, as
they are for every document the gate accepts (on a truthy non-mapping the
Python crashes with `AttributeError`, a malformed-document case outside the
claims). -/

mutual

/-- `canonical_json` (capsule_policy_check.py lines 13-22). -/
def canonical_json : JVal → String
  | .arr xs => "[" ++ String.intercalate "," (cjList xs) ++ "]"
  | .obj kvs => "\x7b" ++ String.intercalate "," (renderPairs (sortPairs (cjPairs kvs))) ++ "\x7d"
  | v => jsonDumpsScalar false v

/-- The list comprehension `canonical_json(item) for item in obj`. -/
def cjList : List JVal → List String
  | [] => []
  | x :: xs => canonical_json x :: cjList xs

/-- Canonicalize each object entry's value, keeping its key. -/
def cjPairs : List (String × JVal) → List (String × String)
  | [] => []
  | p :: ps => (p.1, canonical_json p.2) :: cjPairs ps

end

/-- The `core` mapping built inside `norm_capsule_for_digest`
(capsule_policy_check.py lines 24-39). -/
def core (c : YDict) : YDict :=
  let ped0 : JVal :=
    match dget c "pedagogy" with
    | some v => if pyTruthy v then v else .arr []
    | none => .arr []
  let pedagogy : JVal :=
    match ped0 with
    | .arr xs =>
        .arr (xs.filterMap (fun p =>
          match p with
          | .obj kvs => some (.obj [("kind", (dget kvs "kind").getD .null),
                                    ("text", (dget kvs "text").getD .null)])
          | _ => none))
    | _ => .arr []
  let assumptions : JVal :=
    match dget c "assumptions" with
    | some (.arr xs) => .arr xs
    | _ => .arr []
  [("id", (dget c "id").getD .null),
   ("version", (dget c "version").getD .null),
   ("domain", (dget c "domain").getD .null),
   ("title", (dget c "title").getD .null),
   ("statement", (dget c "statement").getD .null),
   ("assumptions", assumptions),
   ("pedagogy", pedagogy)]

/-- `norm_capsule_for_digest` (capsule_policy_check.py lines 24-41):
SHA-256 lowercase-hex fingerprint of the canonical JSON of the core. -/
def norm_capsule_for_digest (sha256hex : String → String) (c : YDict) : String :=
  sha256hex (canonical_json (.obj (core c)))

/-- Python `(x or {})` applied to a fetched field that is then used as a
mapping: absent or falsy values give the empty mapping. -/
def pyOrEmptyDict : Option JVal → YDict
  | some (.obj kvs) => kvs
  | _ => []

/-- `c.get("provenance") or {}` (capsule_policy_check.py lines 68-69). -/
def provenance_block (c : YDict) : YDict := pyOrEmptyDict (dget c "provenance")

/-- `ps = ((c.get("provenance") or {}).get("signing")) or {}` (line 68). -/
def signing_block (c : YDict) : YDict :=
  pyOrEmptyDict (dget (provenance_block c) "signing")

/-- `((c.get("provenance") or {}).get("review") or {}).get("status", "draft")`
(line 69). -/
def review_status (c : YDict) : JVal :=
  (dget (pyOrEmptyDict (dget (provenance_block c) "review")) "status").getD (.str "draft")

/-- The `status == "approved"` comparison (line 76): a Python equality
between an arbitrary value and a string literal. -/
def approved_status (c : YDict) : Bool :=
  match review_status c with
  | .str s => s == "approved"
  | _ => false

/-- `ps.get("digest") != dig` (line 71), negated: the stored value compares
equal to the recomputed digest string exactly when it is that string. -/
def digest_matches (sha256hex : String → String) (c : YDict) : Bool :=
  match dget (signing_block c) "digest" with
  | some (.str d) => d == norm_capsule_for_digest sha256hex c
  | _ => false

/-- Outcome of the pynacl call
`VerifyKey(b64decode(pub)).verify(dig.encode("utf-8"), b64decode(sig))`:
either it returns (signature valid) or it raises (bad signature, base64
decode failure, key construction failure, ...). -/
inductive VerifyOutcome where
  | ok
  | exn (msg : String)
deriving DecidableEq

/-- The body of the `try` at capsule_policy_check.py lines 86-87, given an
oracle for the external Ed25519 primitive (arguments: pubkey, message,
signature).  Non-string stored values make `base64.b64decode` raise
`TypeError` before any verification. -/
def attempt_verify (verify : String → String → String → VerifyOutcome)
    (dig : String) (sig pub : JVal) : VerifyOutcome :=
  match sig, pub with
  | .str s, .str p => verify p dig s
  | _, _ => .exn "TypeError"

/-- Per-capsule verdict of the gate; `fail` carries the `[error]` reason
printed by the script. -/
inductive GateVerdict where
  | pass
  | fail (reason : String)
deriving DecidableEq

/-- The per-capsule body of the gate's loop (capsule_policy_check.py lines
66-91): digest check first and terminal, then — in strict mode on an
approved capsule — pynacl availability, signature/pubkey presence
(truthiness), and fail-closed Ed25519 verification. -/
def check_capsule (sha256hex : String → String)
    (verify : String → String → String → VerifyOutcome)
    (haveNacl requireSig : Bool) (c : YDict) : GateVerdict :=
  if digest_matches sha256hex c = false then .fail "digest mismatch"
  else if requireSig && approved_status c then
    if haveNacl = false then
      .fail "approved requires signature verification but pynacl not available"
    else
      match dget (signing_block c) "signature", dget (signing_block c) "pubkey" with
      | some sv, some pv =>
          if !pyTruthy sv || !pyTruthy pv then
            .fail "approved requires signature+pubkey"
          else
            match attempt_verify verify (norm_capsule_for_digest sha256hex c) sv pv with
            | .ok => .pass
            | .exn _ => .fail "signature verification failed"
      | _, _ => .fail "approved requires signature+pubkey"
  else .pass

/-- One iteration of the gate's loop over parsed capsule documents:
`checked += 1`, then `errors += 1` exactly when the capsule's verdict is a
failure. -/
def gate_step (sha256hex : String → String)
    (verify : String → String → String → VerifyOutcome)
    (haveNacl requireSig : Bool) (acc : Nat × Nat) (c : YDict) : Nat × Nat :=
  (acc.1 + 1,
   acc.2 + (if check_capsule sha256hex verify haveNacl requireSig c = .pass then 0 else 1))

/-- The gate's batch run over a directory's parsed capsules
(capsule_policy_check.py lines 55-93), returning `(checked, errors)`. -/
def gate_run (sha256hex : String → String)
    (verify : String → String → String → VerifyOutcome)
    (haveNacl requireSig : Bool) (cs : List YDict) : Nat × Nat :=
  cs.foldl (gate_step sha256hex verify haveNacl requireSig) (0, 0)

end PolicyCheck

namespace RunWitnesses

/-! Translation of `scripts/run_witnesses.py`.

`run_witness` interacts with the operating system at two points: creating
and writing the temporary source file, and running the subprocess.  Both
are modelled as explicit outcome parameters (`TmpOutcome`, `ExecOutcome`)
so each exit path of the Python function is a case of the Lean function;
the returned pair's second component records which temporary file, if any,
is still on disk when the function returns. -/

/-- `LANGUAGE_ENTRYPOINTS` (run_witnesses.py lines 27-32). -/
def LANGUAGE_ENTRYPOINTS : List (String × String) :=
  [("python", "python3"), ("node", "node"), ("bash", "bash"), ("shell", "sh")]

/-- `ext_map` (run_witnesses.py line 114). -/
def ext_map : List (String × String) :=
  [("python", ".py"), ("node", ".js"), ("bash", ".sh"), ("shell", ".sh")]

/-- A witness specification as read off the capsule mapping by the `.get`
calls at run_witnesses.py lines 84-92.  `code` is `witness.get("code", "")`
(absent and empty coincide); optional fields keep their Python defaults in
`run_witness` itself. -/
structure Witness where
  name : Option String
  language : Option String
  code : String
  entrypoint : Option String
  args : List String
  env : List (String × JVal)
  workdir : Option String
  timeout_ms : Option Int
  stdin : Option String

/-- The result mapping returned by `run_witness`. -/
structure WitnessResult where
  name : String
  status : String
  returncode : Int
  stdout : String
  stderr : String
deriving DecidableEq

/-- Outcome of materializing the witness code into a temporary file
(run_witnesses.py lines 118-126): the `NamedTemporaryFile` call can raise
before any file exists, and `f.write(code)` can raise after the file was
created on disk (`delete=False`) but before `code_file = f.name` ran. -/
inductive TmpOutcome where
  | ok (fname : String)
  | createExn (msg : String)
  | writeExn (fname : String) (msg : String)
deriving DecidableEq

/-- Outcome of `subprocess.run` (run_witnesses.py lines 143-199): normal
completion with decoded output, `TimeoutExpired`, `FileNotFoundError` for a
missing interpreter, or any other exception. -/
inductive ExecOutcome where
  | completed (returncode : Int) (stdout stderr : String)
  | timedOut
  | notFound
  | exn (msg : String)
deriving DecidableEq

/-- The guard at run_witnesses.py line 95, negated:
`not (not language or language not in LANGUAGE_ENTRYPOINTS)`.  The empty
string is falsy and is not a key, so the condition reduces to key
membership. -/
def language_supported (language : Option String) : Bool :=
  match language with
  | some l => (dgetS LANGUAGE_ENTRYPOINTS l).isSome
  | none => false

/-- `entrypoint = witness.get("entrypoint") or LANGUAGE_ENTRYPOINTS.get(language, language)`
(line 87): a truthy explicit entrypoint wins, else the language's default
interpreter. -/
def effective_entrypoint (w : Witness) : String :=
  match w.entrypoint with
  | some e => if e ≠ "" then e else (dgetS LANGUAGE_ENTRYPOINTS (w.language.getD "")).getD (w.language.getD "")
  | none => (dgetS LANGUAGE_ENTRYPOINTS (w.language.getD "")).getD (w.language.getD "")

mutual

/-- Python `repr` of a decoded YAML value (exact for scalars and for
strings without quotes or escapes, which is all the witness `env` maps
hold). -/
def pyRepr : JVal → String
  | .null => "None"
  | .bool b => if b then "True" else "False"
  | .num n => toString n
  | .str s => "'" ++ s ++ "'"
  | .arr xs => "[" ++ String.intercalate ", " (pyReprList xs) ++ "]"
  | .obj kvs => "\x7b" ++ String.intercalate ", " (pyReprPairs kvs) ++ "\x7d"

/-- `repr` of each list element. -/
def pyReprList : List JVal → List String
  | [] => []
  | x :: xs => pyRepr x :: pyReprList xs

/-- `repr` of each dict entry. -/
def pyReprPairs : List (String × JVal) → List String
  | [] => []
  | p :: ps => ("'" ++ p.1 ++ "': " ++ pyRepr p.2) :: pyReprPairs ps

end

/-- Python `str(v)` as applied to witness `env` values (line 132): a string
is itself, everything else via `repr`-style rendering. -/
def pyStr : JVal → String
  | .str s => s
  | v => pyRepr v

/-- Insertion into a Python dict (`d[k] = v`): an existing key keeps its
position with the new value, a new key is appended. -/
def dictInsert : List (String × String) → String → String → List (String × String)
  | [], k, v => [(k, v)]
  | p :: ps, k, v => if p.1 = k then (k, v) :: ps else p :: dictInsert ps k v

/-- Python `a.update(b)`: every entry of `b` overwrites or extends `a`. -/
def dictUpdate (a b : List (String × String)) : List (String × String) :=
  b.foldl (fun acc p => dictInsert acc p.1 p.2) a

/-- The stringified witness `env` map built by the loop at lines 130-132. -/
def stringify_env (env : List (String × JVal)) : List (String × String) :=
  env.foldl (fun acc p => dictInsert acc p.1 (pyStr p.2)) []

/-- `safe_env` as it stands when passed to `subprocess.run` (lines 128-134):
the stringified witness `env`, then `safe_env.update(os.environ)` — the
parent process environment overlaid on top, parent values winning. -/
def safe_env (osEnviron : List (String × String)) (w : Witness) : List (String × String) :=
  dictUpdate (stringify_env w.env) osEnviron

/-- `env=safe_env if safe_env else None` (line 148): the environment the
subprocess is started with; `none` makes the child inherit the parent
environment wholesale. -/
def subprocess_env (osEnviron : List (String × String)) (w : Witness) :
    Option (List (String × String)) :=
  let se := safe_env osEnviron w
  if se.isEmpty then none else some se

/-- The environment map the spawned child actually observes. -/
def effective_child_env (osEnviron : List (String × String)) (w : Witness) :
    List (String × String) :=
  match subprocess_env osEnviron w with
  | some e => e
  | none => osEnviron

/-- The SKIP self-report check (lines 154-160): the stripped stdout parses
as a JSON mapping whose `status` entry equals the string `"SKIP"`.
`jloads` stands for Python's `json.loads`, returning `none` when it
raises. -/
def is_skip_stdout (jloads : String → Option JVal) (stdout : String) : Bool :=
  match jloads stdout.trim with
  | some (.obj kvs) =>
      match dget kvs "status" with
      | some (.str s) => s == "SKIP"
      | _ => false
  | _ => false

/-- `run_witness` (run_witnesses.py lines 74-207).  Returns the result
mapping together with the temporary file, if any, still on disk on return.
The `finally` block unlinks the temporary file whenever `code_file` was
bound — that is, on every path through the `ok` temp outcome; after
`writeExn` the file exists but `code_file` was never assigned, so the
`finally` guard skips the unlink and the file is left behind. -/
def run_witness (jloads : String → Option JVal) (w : Witness) (capsule_file : String)
    (tmp : TmpOutcome) (ex : ExecOutcome) : WitnessResult × Option String :=
  let name := w.name.getD "unnamed"
  if language_supported w.language = false then
    (⟨name, "ERROR", -1, "",
      "Unsupported or missing language: " ++ (w.language.getD "None")⟩, none)
  else if w.code = "" then
    (⟨name, "ERROR", -1, "", "Missing witness code"⟩, none)
  else
    match tmp with
    | .createExn m => (⟨name, "ERROR", -1, "", "Execution error: " ++ m⟩, none)
    | .writeExn f m => (⟨name, "ERROR", -1, "", "Execution error: " ++ m⟩, some f)
    | .ok _ =>
        match ex with
        | .completed rc out err =>
            let status := if is_skip_stdout jloads out then "SKIP"
                          else if rc = 0 then "PASS" else "FAIL"
            (⟨name, status, rc, out, err⟩, none)
        | .timedOut =>
            (⟨name, "TIMEOUT", 124, "",
              "Execution exceeded " ++ toString (w.timeout_ms.getD 5000) ++ "ms timeout"⟩, none)
        | .notFound =>
            (⟨name, "ERROR", -1, "",
              "Entrypoint not found: " ++ effective_entrypoint w⟩, none)
        | .exn m => (⟨name, "ERROR", -1, "", "Execution error: " ++ m⟩, none)

/-- A capsule as consumed by the runner: `capsule.get("id", "unknown")`,
`capsule.get("__file__", "")`, `capsule.get("witnesses", [])`. -/
structure RCapsule where
  id : Option String
  file : Option String
  witnesses : List Witness

/-- The per-capsule result mapping built by `run_capsule_witnesses`. -/
structure CapsuleResult where
  capsule : String
  status : String
  witness_results : List WitnessResult
deriving DecidableEq

/-- The optional witness filter (run_witnesses.py lines 221-223): applied
only when the set is truthy (non-empty); keeps witnesses whose `name` is a
member. -/
def selected_witnesses (wfilter : List String) (ws : List Witness) : List Witness :=
  if wfilter.isEmpty then ws
  else ws.filter (fun w =>
    match w.name with
    | some n => wfilter.contains n
    | none => false)

/-- The status aggregation at lines 237-244 over the witness statuses. -/
def aggregate_status (statuses : List String) : String :=
  if statuses.any (fun s => s == "FAIL" || s == "ERROR" || s == "TIMEOUT") then "RED"
  else if statuses.all (fun s => s == "SKIP") then "SKIP"
  else "GREEN"

/-- `run_capsule_witnesses` (run_witnesses.py lines 210-250), with the
temp-file and subprocess outcomes for each witness supplied by `oracle`. -/
def run_capsule_witnesses (jloads : String → Option JVal)
    (oracle : Witness → TmpOutcome × ExecOutcome)
    (wfilter : List String) (c : RCapsule) : CapsuleResult :=
  let ws := selected_witnesses wfilter c.witnesses
  if ws.isEmpty then
    ⟨c.id.getD "unknown", "SKIP", []⟩
  else
    let results := ws.map (fun w =>
      (run_witness jloads w (c.file.getD "") (oracle w).1 (oracle w).2).1)
    ⟨c.id.getD "unknown", aggregate_status (results.map (fun r => r.status)), results⟩

/-- The witness-running loop of `main` (run_witnesses.py lines 387-395)
over the selected capsules.  `witnessArgs` is the parsed `--witness` list
(lines 330-335); `main` stores it in `args.witness` but calls
`run_capsule_witnesses(capsule)` without passing it, so no witness filter
is ever applied. -/
def main_run (jloads : String → Option JVal)
    (oracle : Witness → TmpOutcome × ExecOutcome)
    (witnessArgs : List String) (capsules : List RCapsule) : List CapsuleResult :=
  capsules.map (fun c => run_capsule_witnesses jloads oracle [] c)

end RunWitnesses

/-! ### Supporting lemmas -/

/-- Structural induction for `JVal` that exposes membership hypotheses for
array elements and object entry values. -/
theorem JVal.indOn (P : JVal → Prop)
    (h0 : P .null) (h1 : ∀ b, P (.bool b)) (h2 : ∀ n, P (.num n)) (h3 : ∀ s, P (.str s))
    (h4 : ∀ xs, (∀ x ∈ xs, P x) → P (.arr xs))
    (h5 : ∀ kvs, (∀ p ∈ kvs, P p.2) → P (.obj kvs)) : ∀ v, P v
  | .null => h0
  | .bool b => h1 b
  | .num n => h2 n
  | .str s => h3 s
  | .arr xs => h4 xs (fun x hx => JVal.indOn P h0 h1 h2 h3 h4 h5 x)
  | .obj kvs => h5 kvs (fun p hp => JVal.indOn P h0 h1 h2 h3 h4 h5 p.2)
termination_by v => sizeOf v
decreasing_by
  · have := List.sizeOf_lt_of_mem hx
    simp only [JVal.arr.sizeOf_spec]
    omega
  · have h := List.sizeOf_lt_of_mem hp
    have h2 : sizeOf p.2 < sizeOf p := by
      obtain ⟨a, b⟩ := p
      simp only [Prod.mk.sizeOf_spec]
      omega
    simp only [JVal.obj.sizeOf_spec]
    omega

/-- First-match lookup in an environment map (`d.get(k)` / `d[k]`). -/
def envGet (kvs : List (String × String)) (k : String) : Option String :=
  match kvs.find? (fun p => p.1 == k) with
  | some p => some p.2
  | none => none

theorem envGet_nil (k : String) : envGet [] k = none := rfl

theorem envGet_cons (p : String × String) (ps : List (String × String)) (k : String) :
    envGet (p :: ps) k = if p.1 = k then some p.2 else envGet ps k := by
  by_cases h : p.1 = k
  · simp [envGet, List.find?, h]
  · have hb : (p.1 == k) = false := by simpa using h
    simp [envGet, List.find?, hb, h]

theorem envGet_dictInsert (kvs : List (String × String)) (k v k' : String) :
    envGet (RunWitnesses.dictInsert kvs k v) k'
      = if k' = k then some v else envGet kvs k' := by
  induction kvs with
  | nil =>
      simp only [RunWitnesses.dictInsert, envGet_cons, envGet_nil]
      by_cases h : k' = k
      · rw [if_pos h.symm, if_pos h]
      · rw [if_neg (fun he => h he.symm), if_neg h]
  | cons p ps ih =>
      simp only [RunWitnesses.dictInsert]
      by_cases h1 : p.1 = k
      · rw [if_pos h1]
        by_cases h2 : k' = k
        · subst h2
          rw [envGet_cons]
          simp
        · rw [envGet_cons, if_neg (fun he : k = k' => h2 he.symm), if_neg h2, envGet_cons,
            if_neg (fun hp : p.1 = k' => h2 (hp ▸ h1))]
      · rw [if_neg h1, envGet_cons, envGet_cons]
        by_cases hp : p.1 = k'
        · rw [if_pos hp, if_pos hp, if_neg (fun h2 : k' = k => h1 (hp.trans h2))]
        · rw [if_neg hp, if_neg hp, ih]

theorem envGet_eq_none_of_not_mem (kvs : List (String × String)) (k : String)
    (h : k ∉ kvs.map Prod.fst) : envGet kvs k = none := by
  induction kvs with
  | nil => rfl
  | cons p ps ih =>
      simp only [List.map_cons, List.mem_cons] at h
      push_neg at h
      rw [envGet_cons, if_neg (fun he => h.1 he.symm), ih h.2]

/-- Lookup after `a.update(b)`, for `b` with distinct keys (a process
environment): `b`'s value wins, else fall back to `a`. -/
theorem envGet_dictUpdate (b : List (String × String)) (hb : (b.map Prod.fst).Nodup) :
    ∀ (a : List (String × String)) (k : String),
      envGet (RunWitnesses.dictUpdate a b) k
        = ((envGet b k).orElse (fun _ => envGet a k)) := by
  induction b with
  | nil => intro a k; rfl
  | cons p ps ih =>
      intro a k
      simp only [List.map_cons, List.nodup_cons] at hb
      have step : RunWitnesses.dictUpdate a (p :: ps)
          = RunWitnesses.dictUpdate (RunWitnesses.dictInsert a p.1 p.2) ps := rfl
      rw [step, ih hb.2, envGet_cons]
      by_cases h : p.1 = k
      · subst h
        rw [envGet_eq_none_of_not_mem ps p.1 hb.1]
        simp [envGet_dictInsert]
      · simp only [if_neg h]
        cases hps : envGet ps k with
        | some v => simp [hps, Option.orElse]
        | none =>
            simp only [hps, Option.orElse, envGet_dictInsert]
            rw [if_neg (fun he => h he.symm)]

theorem dictInsert_ne_nil (kvs : List (String × String)) (k v : String) :
    RunWitnesses.dictInsert kvs k v ≠ [] := by
  cases kvs with
  | nil => simp [RunWitnesses.dictInsert]
  | cons p ps =>
      simp only [RunWitnesses.dictInsert]
      by_cases h : p.1 = k <;> simp [h]

theorem dictUpdate_eq_nil (b : List (String × String)) :
    ∀ a, RunWitnesses.dictUpdate a b = [] → a = [] ∧ b = [] := by
  induction b with
  | nil => intro a h; exact ⟨h, rfl⟩
  | cons p ps ih =>
      intro a h
      have step : RunWitnesses.dictUpdate a (p :: ps)
          = RunWitnesses.dictUpdate (RunWitnesses.dictInsert a p.1 p.2) ps := rfl
      rw [step] at h
      exact absurd (ih _ h).1 (dictInsert_ne_nil a p.1 p.2)

/-- Number of failing capsules in a batch. -/
def gateErrCount (sha256hex : String → String)
    (verify : String → String → String → PolicyCheck.VerifyOutcome)
    (haveNacl requireSig : Bool) (cs : List YDict) : Nat :=
  (cs.map (PolicyCheck.check_capsule sha256hex verify haveNacl requireSig)).countP
    (fun v => v != PolicyCheck.GateVerdict.pass)

theorem gate_foldl_eq (sha256hex : String → String)
    (verify : String → String → String → PolicyCheck.VerifyOutcome)
    (haveNacl requireSig : Bool) :
    ∀ (cs : List YDict) (a b : Nat),
      cs.foldl (PolicyCheck.gate_step sha256hex verify haveNacl requireSig) (a, b)
        = (a + cs.length, b + gateErrCount sha256hex verify haveNacl requireSig cs) := by
  intro cs
  induction cs with
  | nil => intro a b; simp [gateErrCount]
  | cons c cs ih =>
      intro a b
      simp only [List.foldl_cons, PolicyCheck.gate_step, ih, gateErrCount, List.map_cons,
        List.countP_cons, List.length_cons, Prod.mk.injEq]
      refine ⟨by omega, ?_⟩
      by_cases h : PolicyCheck.check_capsule sha256hex verify haveNacl requireSig c
          = PolicyCheck.GateVerdict.pass <;> simp [h] <;> omega

theorem gate_run_eq (sha256hex : String → String)
    (verify : String → String → String → PolicyCheck.VerifyOutcome)
    (haveNacl requireSig : Bool) (cs : List YDict) :
    PolicyCheck.gate_run sha256hex verify haveNacl requireSig cs
      = (cs.length, gateErrCount sha256hex verify haveNacl requireSig cs) := by
  simpa using gate_foldl_eq sha256hex verify haveNacl requireSig cs 0 0

/-- The policy gate's element-wise canonicalization agrees with the digest
tool's, given agreement on the elements. -/
theorem pcCjList_eq_cjList (xs : List JVal)
    (ih : ∀ x ∈ xs, PolicyCheck.canonical_json x = CapsuleDigest.canonical_json x) :
    PolicyCheck.cjList xs = CapsuleDigest.cjList xs := by
  induction xs with
  | nil => simp [PolicyCheck.cjList, CapsuleDigest.cjList]
  | cons x xs ihl =>
      simp only [PolicyCheck.cjList, CapsuleDigest.cjList]
      refine congrArg₂ _ (ih x (by simp)) (ihl (fun y hy => ih y (by simp [hy])))

/-- The policy gate's entry-wise canonicalization agrees with the digest
tool's, given agreement on the entry values. -/
theorem pcCjPairs_eq_cjPairs (kvs : List (String × JVal))
    (ih : ∀ p ∈ kvs, PolicyCheck.canonical_json p.2 = CapsuleDigest.canonical_json p.2) :
    PolicyCheck.cjPairs kvs = CapsuleDigest.cjPairs kvs := by
  induction kvs with
  | nil => simp [PolicyCheck.cjPairs, CapsuleDigest.cjPairs]
  | cons p ps ihl =>
      simp only [PolicyCheck.cjPairs, CapsuleDigest.cjPairs]
      rw [ih p (by simp), ihl (fun q hq => ih q (by simp [hq]))]

namespace Fixtures

/-! Concrete sample inputs used to instantiate the claim theorems. -/

/-- A `json.loads` model that fails on every input. -/
def jloads0 : String → Option JVal := fun _ => none

/-- A hash model that is constant (`"D"`). -/
def shaD : String → String := fun _ => "D"

/-- A hash model that returns the canonical string itself. -/
def shaId : String → String := fun s => s

/-- An Ed25519 oracle for which every verification succeeds. -/
def verifyAllOk : String → String → String → PolicyCheck.VerifyOutcome := fun _ _ _ => .ok

/-- An Ed25519 oracle for which every verification raises. -/
def verifyExn : String → String → String → PolicyCheck.VerifyOutcome :=
  fun _ _ _ => .exn "BadSignatureError"

/-- A capsule with no stored digest. -/
def capNoDigest : YDict := [("id", .str "c1")]

/-- An approved capsule whose stored digest matches `shaD` and which
carries a signature and pubkey. -/
def capApproved : YDict :=
  [("id", .str "c1"),
   ("provenance", .obj [("review", .obj [("status", .str "approved")]),
                        ("signing", .obj [("digest", .str "D"), ("signature", .str "SIG"),
                                          ("pubkey", .str "PUB")])])]

/-- Two capsules that agree on all seven core fields but differ in
non-core fields and in mapping key order. -/
def capA : YDict :=
  [("id", .str "x"), ("title", .str "T"), ("provenance", .str "p")]

/-- See `capA`. -/
def capB : YDict :=
  [("title", .str "T"), ("id", .str "x"), ("provenance", .str "q"), ("witnesses", .arr [])]

/-- A well-formed python witness with one declared env entry. -/
def wPy : RunWitnesses.Witness :=
  { name := some "w1", language := some "python", code := "print(1)", entrypoint := none,
    args := [], env := [("A", .str "x")], workdir := none, timeout_ms := none, stdin := none }

/-- A second witness, distinct only in name. -/
def wPy2 : RunWitnesses.Witness :=
  { wPy with name := some "w2" }

/-- A capsule holding the two witnesses above. -/
def capsR : RunWitnesses.RCapsule :=
  { id := some "cap", file := some "cap.yaml", witnesses := [wPy, wPy2] }

/-- Execution oracle: every witness completes with exit code 0. -/
def oraclePass : RunWitnesses.Witness → RunWitnesses.TmpOutcome × RunWitnesses.ExecOutcome :=
  fun _ => (.ok "/tmp/w.py", .completed 0 "" "")

/-- Execution oracle: witness `w2` exits 1, everything else exits 0. -/
def oracleFailW2 : RunWitnesses.Witness → RunWitnesses.TmpOutcome × RunWitnesses.ExecOutcome :=
  fun w => if w.name = some "w2" then (.ok "/tmp/w.py", .completed 1 "" "")
           else (.ok "/tmp/w.py", .completed 0 "" "")

end Fixtures

/-- The two scripts' `canonical_json` functions agree on every value. -/
theorem pc_canonical_json_eq (v : JVal) :
    PolicyCheck.canonical_json v = CapsuleDigest.canonical_json v := by
  induction v using JVal.indOn with
  | h0 => simp [PolicyCheck.canonical_json, CapsuleDigest.canonical_json]
  | h1 b => simp [PolicyCheck.canonical_json, CapsuleDigest.canonical_json]
  | h2 n => simp [PolicyCheck.canonical_json, CapsuleDigest.canonical_json]
  | h3 s => simp [PolicyCheck.canonical_json, CapsuleDigest.canonical_json]
  | h4 xs ih =>
      simp only [PolicyCheck.canonical_json, CapsuleDigest.canonical_json]
      rw [pcCjList_eq_cjList xs ih]
  | h5 kvs ih =>
      simp only [PolicyCheck.canonical_json, CapsuleDigest.canonical_json]
      rw [pcCjPairs_eq_cjPairs kvs ih]

/-! ### Claim theorems -/

/-- Claim C1, counterexample: the environment `run_witness` passes to the
subprocess is not only the witness's declared `env` map — running the same
witness under two different parent-process environments passes two
different environments, and a parent-only entry (`HOME`) reaches the
child. -/
theorem run_witness_env_not_isolated :
    RunWitnesses.subprocess_env [("HOME", "/root")] Fixtures.wPy
      ≠ RunWitnesses.subprocess_env [] Fixtures.wPy ∧
    RunWitnesses.subprocess_env [("HOME", "/root")] Fixtures.wPy
      = some [("A", "x"), ("HOME", "/root")] := by
  refine ⟨by decide, rfl⟩

/-- Claim C1, amended: the subprocess environment is seeded from the
stringified witness `env` map and then overlaid with the full parent
process environment — a lookup resolves to the parent's value first and
falls back to the stringified witness value (and an entirely empty merge
passes `None`, inheriting the parent environment wholesale). -/
theorem run_witness_env_overlay (osEnviron : List (String × String))
    (w : RunWitnesses.Witness) (h : (osEnviron.map Prod.fst).Nodup) (k : String) :
    envGet (RunWitnesses.effective_child_env osEnviron w) k
      = ((envGet osEnviron k).orElse (fun _ => envGet (RunWitnesses.stringify_env w.env) k)) := by
  unfold RunWitnesses.effective_child_env RunWitnesses.subprocess_env
  by_cases hse : (RunWitnesses.safe_env osEnviron w).isEmpty
  · have hnil := dictUpdate_eq_nil osEnviron (RunWitnesses.stringify_env w.env)
      (List.isEmpty_iff.mp hse)
    simp only [hse, if_true]
    rw [hnil.2, hnil.1, envGet_nil]
    rfl
  · simp only [hse, if_false]
    exact envGet_dictUpdate osEnviron h (RunWitnesses.stringify_env w.env) k

/-- Claim C1 amended, witness: under a parent environment binding `HOME`,
the child sees both the inherited `HOME` and the witness-declared `A`. -/
theorem run_witness_env_overlay_witness :
    envGet (RunWitnesses.effective_child_env [("HOME", "/root")] Fixtures.wPy) "A" = some "x" ∧
    envGet (RunWitnesses.effective_child_env [("HOME", "/root")] Fixtures.wPy) "HOME"
      = some "/root" := by
  constructor
  · rw [run_witness_env_overlay [("HOME", "/root")] Fixtures.wPy (by decide) "A"]; rfl
  · rw [run_witness_env_overlay [("HOME", "/root")] Fixtures.wPy (by decide) "HOME"]; rfl

/-- Claim C2: a stored `signing.digest` that is absent or differs from the
recomputed digest makes the gate record `FAIL("digest mismatch")` for that
capsule, for every review status and strict-mode setting, and without ever
consulting the signature-verification primitive. -/
theorem policy_digest_mismatch_terminal (sha256hex : String → String)
    (verify : String → String → String → PolicyCheck.VerifyOutcome)
    (haveNacl requireSig : Bool) (c : YDict)
    (h : PolicyCheck.digest_matches sha256hex c = false) :
    PolicyCheck.check_capsule sha256hex verify haveNacl requireSig c = .fail "digest mismatch" ∧
    ∀ (verify2 : String → String → String → PolicyCheck.VerifyOutcome)
      (haveNacl2 requireSig2 : Bool),
      PolicyCheck.check_capsule sha256hex verify2 haveNacl2 requireSig2 c
        = .fail "digest mismatch" := by
  refine ⟨?_, fun verify2 haveNacl2 requireSig2 => ?_⟩ <;>
    simp [PolicyCheck.check_capsule, h]

/-- Claim C2, witness: a capsule with no stored digest fails with reason
`digest mismatch` under strict mode. -/
theorem policy_digest_mismatch_terminal_witness :
    PolicyCheck.check_capsule Fixtures.shaD Fixtures.verifyAllOk true true Fixtures.capNoDigest
      = .fail "digest mismatch" :=
  (policy_digest_mismatch_terminal Fixtures.shaD Fixtures.verifyAllOk true true
    Fixtures.capNoDigest rfl).1


/-- The fail-closed `try`/`except` block of the gate passes exactly when
both stored values are strings that the Ed25519 primitive accepts. -/
theorem verify_match_pass_iff (verify : String → String → String → PolicyCheck.VerifyOutcome)
    (dig : String) (sv pv : JVal) :
    (match PolicyCheck.attempt_verify verify dig sv pv with
      | PolicyCheck.VerifyOutcome.ok => PolicyCheck.GateVerdict.pass
      | PolicyCheck.VerifyOutcome.exn _ =>
          PolicyCheck.GateVerdict.fail "signature verification failed")
      = PolicyCheck.GateVerdict.pass
    ↔ (∃ s p, sv = JVal.str s ∧ pv = JVal.str p
        ∧ verify p dig s = PolicyCheck.VerifyOutcome.ok) := by
  cases sv <;> cases pv
  case str.str s p =>
    rcases hv : verify p dig s with _ | m <;> simp [PolicyCheck.attempt_verify, hv]
  all_goals simp [PolicyCheck.attempt_verify]

/-- Claim C3: in strict mode, an approved capsule with a matching digest
passes exactly when it stores a (truthy) signature and pubkey that the
Ed25519 primitive verifies over the digest string; and a capsule that is
not approved, or a run without strict mode, passes on digest match
alone. -/
theorem policy_strict_approved_signature (sha256hex : String → String)
    (verify : String → String → String → PolicyCheck.VerifyOutcome) (c : YDict)
    (hd : PolicyCheck.digest_matches sha256hex c = true) :
    (PolicyCheck.approved_status c = true →
      (PolicyCheck.check_capsule sha256hex verify true true c = .pass ↔
        ∃ s p, dget (PolicyCheck.signing_block c) "signature" = some (.str s) ∧ s ≠ "" ∧
               dget (PolicyCheck.signing_block c) "pubkey" = some (.str p) ∧ p ≠ "" ∧
               verify p (PolicyCheck.norm_capsule_for_digest sha256hex c) s = .ok)) ∧
    (PolicyCheck.approved_status c = false →
      ∀ (haveNacl requireSig : Bool),
        PolicyCheck.check_capsule sha256hex verify haveNacl requireSig c = .pass) ∧
    (∀ haveNacl : Bool,
      PolicyCheck.check_capsule sha256hex verify haveNacl false c = .pass) := by
  refine ⟨fun ha => ?_, fun ha haveNacl requireSig => ?_, fun haveNacl => ?_⟩
  · rcases hs : dget (PolicyCheck.signing_block c) "signature" with _ | sv
    · simp [PolicyCheck.check_capsule, hd, ha, hs]
    · rcases hp : dget (PolicyCheck.signing_block c) "pubkey" with _ | pv
      · simp [PolicyCheck.check_capsule, hd, ha, hs, hp]
      · have hred : PolicyCheck.check_capsule sha256hex verify true true c
            = if !pyTruthy sv || !pyTruthy pv then
                PolicyCheck.GateVerdict.fail "approved requires signature+pubkey"
              else
                match PolicyCheck.attempt_verify verify
                    (PolicyCheck.norm_capsule_for_digest sha256hex c) sv pv with
                | PolicyCheck.VerifyOutcome.ok => PolicyCheck.GateVerdict.pass
                | PolicyCheck.VerifyOutcome.exn _ =>
                    PolicyCheck.GateVerdict.fail "signature verification failed" := by
          simp [PolicyCheck.check_capsule, hd, ha, hs, hp]
        rw [hred]
        cases hts : pyTruthy sv <;> cases htp : pyTruthy pv
        case true.true =>
          rw [if_neg (by simp)]
          rw [verify_match_pass_iff]
          constructor
          · rintro ⟨s, p, rfl, rfl, hv⟩
            exact ⟨s, p, rfl, by simpa [pyTruthy] using hts, rfl,
              by simpa [pyTruthy] using htp, hv⟩
          · rintro ⟨s, p, hsv, hs0, hpv, hp0, hv⟩
            exact ⟨s, p, Option.some.inj hsv, Option.some.inj hpv, hv⟩
        all_goals (
          rw [if_pos (by simp)]
          refine iff_of_false (by simp) ?_
          rintro ⟨s, p, hsv, hs0, hpv, hp0, hv⟩
          obtain rfl : sv = JVal.str s := Option.some.inj hsv
          obtain rfl : pv = JVal.str p := Option.some.inj hpv
          simp_all [pyTruthy])
  · simp [PolicyCheck.check_capsule, hd, ha]
  · simp [PolicyCheck.check_capsule, hd]

/-- Claim C3, witness: the approved fixture capsule passes strict mode
under an oracle that verifies its signature. -/
theorem policy_strict_approved_signature_witness :
    PolicyCheck.check_capsule Fixtures.shaD Fixtures.verifyAllOk true true Fixtures.capApproved
      = .pass :=
  ((policy_strict_approved_signature Fixtures.shaD Fixtures.verifyAllOk Fixtures.capApproved
      rfl).1 rfl).mpr
    ⟨"SIG", "PUB", rfl, by decide, rfl, by decide, rfl⟩

/-- The seven digest-relevant capsule keys. -/
def coreKeys : List String :=
  ["id", "version", "domain", "title", "statement", "assumptions", "pedagogy"]

/-- Claim C4: `calculate_digest` is a function of the seven normalized core
fields alone — capsules with equal normalized cores share a digest, and
more specifically capsules whose mappings agree on the seven core keys
(whatever their other fields or key order) share a digest. -/
theorem calculate_digest_core_only (sha256hex : String → String) (c1 c2 : YDict) :
    (CapsuleDigest.core_for_digest c1 = CapsuleDigest.core_for_digest c2 →
      CapsuleDigest.calculate_digest sha256hex c1 = CapsuleDigest.calculate_digest sha256hex c2) ∧
    ((∀ k ∈ coreKeys, dget c1 k = dget c2 k) →
      CapsuleDigest.calculate_digest sha256hex c1 = CapsuleDigest.calculate_digest sha256hex c2) := by
  have hcore : (∀ k ∈ coreKeys, dget c1 k = dget c2 k) →
      CapsuleDigest.core_for_digest c1 = CapsuleDigest.core_for_digest c2 := by
    intro h
    have h1 := h "id" (by simp [coreKeys])
    have h2 := h "version" (by simp [coreKeys])
    have h3 := h "domain" (by simp [coreKeys])
    have h4 := h "title" (by simp [coreKeys])
    have h5 := h "statement" (by simp [coreKeys])
    have h6 := h "assumptions" (by simp [coreKeys])
    have h7 := h "pedagogy" (by simp [coreKeys])
    simp only [CapsuleDigest.core_for_digest, h1, h2, h3, h4, h5, h6, h7]
  exact ⟨fun h => by simp only [CapsuleDigest.calculate_digest, h],
         fun h => by simp only [CapsuleDigest.calculate_digest, hcore h]⟩

/-- Claim C4, witness: the two fixture capsules differ in `provenance`,
`witnesses` and key order but agree on the core keys, and get the same
digest. -/
theorem calculate_digest_core_only_witness :
    CapsuleDigest.calculate_digest Fixtures.shaId Fixtures.capA
      = CapsuleDigest.calculate_digest Fixtures.shaId Fixtures.capB :=
  (calculate_digest_core_only Fixtures.shaId Fixtures.capA Fixtures.capB).2
    (by
      intro k hk
      simp only [coreKeys, List.mem_cons, List.not_mem_nil, or_false] at hk
      rcases hk with rfl | rfl | rfl | rfl | rfl | rfl | rfl <;> rfl)

/-- Claim C5: `run_witness` classification — an unsupported or missing
language, or empty or missing code, yields `ERROR` without consulting the
temp-file or subprocess outcomes (no subprocess is spawned and no
temporary file is created); a timeout yields `TIMEOUT` with reported exit
code 124 (deadline `timeout_ms`, default 5000 ms); a missing interpreter
yields `ERROR`; and a completed run is `SKIP` when stdout parses as a JSON
object with status `"SKIP"`, else `PASS` exactly on exit code 0 and `FAIL`
otherwise. -/
theorem run_witness_classification (jloads : String → Option JVal)
    (w : RunWitnesses.Witness) (cfile : String)
    (tmp : RunWitnesses.TmpOutcome) (ex : RunWitnesses.ExecOutcome) :
    (RunWitnesses.language_supported w.language = false →
      (RunWitnesses.run_witness jloads w cfile tmp ex).1.status = "ERROR" ∧
      (RunWitnesses.run_witness jloads w cfile tmp ex).2 = none ∧
      ∀ tmp2 ex2, RunWitnesses.run_witness jloads w cfile tmp2 ex2
        = RunWitnesses.run_witness jloads w cfile tmp ex) ∧
    (RunWitnesses.language_supported w.language = true → w.code = "" →
      (RunWitnesses.run_witness jloads w cfile tmp ex).1.status = "ERROR" ∧
      (RunWitnesses.run_witness jloads w cfile tmp ex).2 = none ∧
      ∀ tmp2 ex2, RunWitnesses.run_witness jloads w cfile tmp2 ex2
        = RunWitnesses.run_witness jloads w cfile tmp ex) ∧
    (RunWitnesses.language_supported w.language = true → w.code ≠ "" →
      ∀ f, tmp = .ok f →
      (ex = .timedOut →
        (RunWitnesses.run_witness jloads w cfile tmp ex).1.status = "TIMEOUT" ∧
        (RunWitnesses.run_witness jloads w cfile tmp ex).1.returncode = 124 ∧
        (RunWitnesses.run_witness jloads w cfile tmp ex).1.stderr
          = "Execution exceeded " ++ toString (w.timeout_ms.getD 5000) ++ "ms timeout") ∧
      (ex = .notFound →
        (RunWitnesses.run_witness jloads w cfile tmp ex).1.status = "ERROR") ∧
      (∀ rc out err, ex = .completed rc out err →
        (RunWitnesses.run_witness jloads w cfile tmp ex).1.status
          = (if RunWitnesses.is_skip_stdout jloads out then "SKIP"
             else if rc = 0 then "PASS" else "FAIL") ∧
        (RunWitnesses.run_witness jloads w cfile tmp ex).1.returncode = rc)) := by
  refine ⟨fun hl => ?_, fun hl hc => ?_, fun hl hc f htmp => ?_⟩
  · refine ⟨?_, ?_, fun tmp2 ex2 => ?_⟩ <;> simp [RunWitnesses.run_witness, hl]
  · refine ⟨?_, ?_, fun tmp2 ex2 => ?_⟩ <;> simp [RunWitnesses.run_witness, hl, hc]
  · subst htmp
    refine ⟨fun hex => ?_, fun hex => ?_, fun rc out err hex => ?_⟩ <;>
      subst hex <;> simp [RunWitnesses.run_witness, hl, hc]

/-- Claim C5, witness: a well-formed witness whose subprocess exceeds its
deadline is classified `TIMEOUT` with exit code 124. -/
theorem run_witness_classification_witness :
    (RunWitnesses.run_witness Fixtures.jloads0 Fixtures.wPy "" (.ok "/tmp/w.py")
        .timedOut).1.status = "TIMEOUT" ∧
    (RunWitnesses.run_witness Fixtures.jloads0 Fixtures.wPy "" (.ok "/tmp/w.py")
        .timedOut).1.returncode = 124 := by
  have h := ((run_witness_classification Fixtures.jloads0 Fixtures.wPy "" (.ok "/tmp/w.py")
      .timedOut).2.2 rfl (by decide) "/tmp/w.py" rfl).1 rfl
  exact ⟨h.1, h.2.1⟩

/-- Claim C6: `run_capsule_witnesses` reports `SKIP` when no witnesses run
(empty or fully filtered-out list), `RED` when some result is `FAIL`,
`ERROR` or `TIMEOUT`, `SKIP` when all results are `SKIP`, and `GREEN`
otherwise. -/
theorem run_capsule_aggregation (jloads : String → Option JVal)
    (oracle : RunWitnesses.Witness → RunWitnesses.TmpOutcome × RunWitnesses.ExecOutcome)
    (wfilter : List String) (c : RunWitnesses.RCapsule) :
    (RunWitnesses.selected_witnesses wfilter c.witnesses = [] →
      (RunWitnesses.run_capsule_witnesses jloads oracle wfilter c).status = "SKIP" ∧
      (RunWitnesses.run_capsule_witnesses jloads oracle wfilter c).witness_results = []) ∧
    (RunWitnesses.selected_witnesses wfilter c.witnesses ≠ [] →
      ((∃ r ∈ (RunWitnesses.run_capsule_witnesses jloads oracle wfilter c).witness_results,
          r.status = "FAIL" ∨ r.status = "ERROR" ∨ r.status = "TIMEOUT") →
        (RunWitnesses.run_capsule_witnesses jloads oracle wfilter c).status = "RED") ∧
      ((∀ r ∈ (RunWitnesses.run_capsule_witnesses jloads oracle wfilter c).witness_results,
          ¬(r.status = "FAIL" ∨ r.status = "ERROR" ∨ r.status = "TIMEOUT")) →
        ((∀ r ∈ (RunWitnesses.run_capsule_witnesses jloads oracle wfilter c).witness_results,
            r.status = "SKIP") →
          (RunWitnesses.run_capsule_witnesses jloads oracle wfilter c).status = "SKIP") ∧
        ((∃ r ∈ (RunWitnesses.run_capsule_witnesses jloads oracle wfilter c).witness_results,
            r.status ≠ "SKIP") →
          (RunWitnesses.run_capsule_witnesses jloads oracle wfilter c).status = "GREEN"))) := by
  by_cases hws : RunWitnesses.selected_witnesses wfilter c.witnesses = []
  · refine ⟨fun _ => ?_, fun hne => absurd hws hne⟩
    simp [RunWitnesses.run_capsule_witnesses, hws]
  · have hne : (RunWitnesses.selected_witnesses wfilter c.witnesses).isEmpty = false := by
      simpa [List.isEmpty_iff] using hws
    refine ⟨fun h => absurd h hws, fun _ => ?_⟩
    simp only [RunWitnesses.run_capsule_witnesses, hne, Bool.false_eq_true, if_false]
    set results := (RunWitnesses.selected_witnesses wfilter c.witnesses).map (fun w =>
      (RunWitnesses.run_witness jloads w (c.file.getD "") (oracle w).1 (oracle w).2).1) with hres
    refine ⟨fun hbad => ?_, fun hgood => ⟨fun hskip => ?_, fun hnon => ?_⟩⟩
    · obtain ⟨r, hr, hst⟩ := hbad
      have : (results.map (fun r => r.status)).any
          (fun s => s == "FAIL" || s == "ERROR" || s == "TIMEOUT") = true := by
        rw [List.any_eq_true]
        refine ⟨r.status, List.mem_map_of_mem _ hr, ?_⟩
        rcases hst with h | h | h <;> simp [h]
      simp [RunWitnesses.aggregate_status, this]
    · have hany : (results.map (fun r => r.status)).any
          (fun s => s == "FAIL" || s == "ERROR" || s == "TIMEOUT") = false := by
        rw [Bool.eq_false_iff]
        intro hcon
        rw [List.any_eq_true] at hcon
        obtain ⟨s, hsmem, hsval⟩ := hcon
        obtain ⟨r, hr, rfl⟩ := List.mem_map.mp hsmem
        have := hgood r hr
        simp only [Bool.or_eq_true, beq_iff_eq] at hsval
        tauto
      have hall : (results.map (fun r => r.status)).all (fun s => s == "SKIP") = true := by
        rw [List.all_eq_true]
        intro s hsmem
        obtain ⟨r, hr, rfl⟩ := List.mem_map.mp hsmem
        simp [hskip r hr]
      simp [RunWitnesses.aggregate_status, hany, hall]
    · obtain ⟨r, hr, hst⟩ := hnon
      have hany : (results.map (fun r => r.status)).any
          (fun s => s == "FAIL" || s == "ERROR" || s == "TIMEOUT") = false := by
        rw [Bool.eq_false_iff]
        intro hcon
        rw [List.any_eq_true] at hcon
        obtain ⟨s, hsmem, hsval⟩ := hcon
        obtain ⟨r2, hr2, rfl⟩ := List.mem_map.mp hsmem
        have := hgood r2 hr2
        simp only [Bool.or_eq_true, beq_iff_eq] at hsval
        tauto
      have hall : (results.map (fun r => r.status)).all (fun s => s == "SKIP") = false := by
        rw [Bool.eq_false_iff]
        intro hcon
        rw [List.all_eq_true] at hcon
        exact hst (by simpa using hcon r.status (List.mem_map_of_mem _ hr))
      simp [RunWitnesses.aggregate_status, hany, hall]

/-- Claim C6, witness: one `PASS` plus one `FAIL` aggregates to `RED`. -/
theorem run_capsule_aggregation_witness :
    (RunWitnesses.run_capsule_witnesses Fixtures.jloads0 Fixtures.oracleFailW2 []
        Fixtures.capsR).status = "RED" := by
  refine ((run_capsule_aggregation Fixtures.jloads0 Fixtures.oracleFailW2 []
      Fixtures.capsR).2 ?_).1 ?_
  · intro h
    exact absurd (congrArg List.length h) (by decide)
  · refine ⟨⟨"w2", "FAIL", 1, "", ""⟩, by decide, Or.inl rfl⟩

/-- Claim C7, failing input: invoking the runner CLI with `--witness w1` on
a capsule holding witnesses `w1` and `w2` still executes both witnesses —
`main` parses the filter but never passes it to `run_capsule_witnesses`,
so its result equals the unfiltered run, even though the library function
itself would restrict execution to `w1`. -/
theorem main_witness_filter_unused :
    (RunWitnesses.main_run Fixtures.jloads0 Fixtures.oraclePass ["w1"] [Fixtures.capsR]).map
        (fun r => r.witness_results.map (fun wr => wr.name)) = [["w1", "w2"]] ∧
    RunWitnesses.main_run Fixtures.jloads0 Fixtures.oraclePass ["w1"] [Fixtures.capsR]
      = RunWitnesses.main_run Fixtures.jloads0 Fixtures.oraclePass [] [Fixtures.capsR] ∧
    (RunWitnesses.run_capsule_witnesses Fixtures.jloads0 Fixtures.oraclePass ["w1"]
        Fixtures.capsR).witness_results.map (fun wr => wr.name) = ["w1"] := by
  refine ⟨by decide, rfl, by decide⟩

/-- Claim C8: any exception raised inside the gate's Ed25519 `try` block —
base64 decoding, key construction, or verification — is recorded as a
per-capsule `signature verification failed` error, never as a pass, and
the batch keeps processing every other capsule: the checked/error counts
decompose over the surrounding capsules. -/
theorem signature_verify_fail_closed (sha256hex : String → String)
    (verify : String → String → String → PolicyCheck.VerifyOutcome)
    (c : YDict) (cs1 cs2 : List YDict) (m : String) (sv pv : JVal)
    (hd : PolicyCheck.digest_matches sha256hex c = true)
    (ha : PolicyCheck.approved_status c = true)
    (hs : dget (PolicyCheck.signing_block c) "signature" = some sv)
    (hp : dget (PolicyCheck.signing_block c) "pubkey" = some pv)
    (hts : pyTruthy sv = true) (htp : pyTruthy pv = true)
    (hexn : PolicyCheck.attempt_verify verify
        (PolicyCheck.norm_capsule_for_digest sha256hex c) sv pv = .exn m) :
    PolicyCheck.check_capsule sha256hex verify true true c
      = .fail "signature verification failed" ∧
    PolicyCheck.check_capsule sha256hex verify true true c ≠ .pass ∧
    (PolicyCheck.gate_run sha256hex verify true true (cs1 ++ c :: cs2)).1
      = cs1.length + 1 + cs2.length ∧
    (PolicyCheck.gate_run sha256hex verify true true (cs1 ++ c :: cs2)).2
      = (PolicyCheck.gate_run sha256hex verify true true cs1).2 + 1
        + (PolicyCheck.gate_run sha256hex verify true true cs2).2 := by
  have hfail : PolicyCheck.check_capsule sha256hex verify true true c
      = .fail "signature verification failed" := by
    simp [PolicyCheck.check_capsule, hd, ha, hs, hp, hts, htp, hexn]
  refine ⟨hfail, by simp [hfail], ?_, ?_⟩
  · rw [gate_run_eq]
    simp
    omega
  · rw [gate_run_eq, gate_run_eq, gate_run_eq]
    simp only [gateErrCount, List.map_append, List.map_cons, List.countP_append,
      List.countP_cons, hfail]
    simp
    omega

/-- Claim C8, witness: an oracle that raises on the approved fixture
capsule yields the per-capsule failure. -/
theorem signature_verify_fail_closed_witness :
    PolicyCheck.check_capsule Fixtures.shaD Fixtures.verifyExn true true Fixtures.capApproved
      = .fail "signature verification failed" :=
  (signature_verify_fail_closed Fixtures.shaD Fixtures.verifyExn Fixtures.capApproved [] []
    "BadSignatureError" (.str "SIG") (.str "PUB") rfl rfl rfl rfl (by decide) (by decide)
    rfl).1

/-- Claim C9, failing input: when the temporary file has been created but
`f.write(code)` raises (for example on a full disk), `run_witness` returns
`ERROR` yet leaves the temporary file on disk — `code_file` was never
bound, so the `finally` block's guard skips the unlink.  On the exit paths
where the write completed (normal completion, timeout, missing
interpreter, any later exception) the file is always removed. -/
theorem run_witness_temp_file_leak :
    (RunWitnesses.run_witness Fixtures.jloads0 Fixtures.wPy ""
        (.writeExn "/tmp/wit_x.py" "No space left on device") (.completed 0 "" "")).2
      = some "/tmp/wit_x.py" ∧
    (RunWitnesses.run_witness Fixtures.jloads0 Fixtures.wPy ""
        (.writeExn "/tmp/wit_x.py" "No space left on device") (.completed 0 "" "")).1.status
      = "ERROR" ∧
    (∀ (f : String) (ex : RunWitnesses.ExecOutcome),
      (RunWitnesses.run_witness Fixtures.jloads0 Fixtures.wPy "" (.ok f) ex).2 = none) := by
  refine ⟨rfl, rfl, fun f ex => ?_⟩
  cases ex <;> rfl

/-- Claim C10: the policy gate's `norm_capsule_for_digest` computes exactly
the digest tool's `calculate_digest` — same core-field extraction, same
canonical JSON serialization, same hash application — so the gate accepts
precisely the digests the digest tool stores. -/
theorem policy_gate_digest_refines_digest_tool (sha256hex : String → String) (c : YDict) :
    PolicyCheck.norm_capsule_for_digest sha256hex c
      = CapsuleDigest.calculate_digest sha256hex c := by
  unfold PolicyCheck.norm_capsule_for_digest CapsuleDigest.calculate_digest
  rw [pc_canonical_json_eq]
  rfl
